import Mathlib

/- Shallow embedding of the orchestration layer of the luau-lsp language server
   (src/src/Workspace.hpp, class WorkspaceFolder).

   External collaborators (the Luau analysis engine, the glob library,
   std::filesystem, the LSP client) are consumed as black boxes in the source;
   here they appear as oracle fields of the `WorkspaceFolder` state.
   Components of the repository that are only declared in the analysed tree
   (Uri, TextDocument::update, WorkspaceFileResolver) are modelled from the
   specification where a claim depends on them; such definitions carry a
   doc comment starting with "Modelled from the spec:". -/

abbrev ModuleName := String

namespace lsp

/-- lsp::Position, zero based line / character. -/
structure Position where
  line : Nat
  character : Nat
deriving DecidableEq, Repr

/-- lsp::Range.  The C++ field `end` is renamed `finish` (reserved word in Lean). -/
structure Range where
  start : Position
  finish : Position
deriving DecidableEq, Repr

inductive DiagnosticSeverity where
  | error
  | warning
deriving DecidableEq, Repr

/-- lsp::Diagnostic, restricted to the fields Workspace.hpp writes. -/
structure Diagnostic where
  source : String
  code : String
  message : String
  severity : DiagnosticSeverity
  range : Range
deriving DecidableEq, Repr

/-- lsp::DocumentDiagnosticReport.  `relatedDocuments` is a map from a document
URI string to the diagnostics of the corresponding full sub-report; the map is
represented as an association list in insertion order. -/
structure DocumentDiagnosticReport where
  items : List Diagnostic
  relatedDocuments : List (String × List Diagnostic)
deriving DecidableEq, Repr

inductive CompletionItemKind where
  | Field
  | Variable
  | Keyword
  | Constant
  | Interface
  | Module
  | Function
  | Event
  | Class
deriving DecidableEq, Repr

inductive InsertTextFormat where
  | PlainText
  | Snippet
deriving DecidableEq, Repr

/-- lsp::Command (title plus client side command identifier). -/
structure Command where
  title : String
  command : String
deriving DecidableEq, Repr

/-- lsp::CompletionItem, restricted to the fields Workspace.hpp writes.
`documentation` holds the rendered markdown text when present. -/
structure CompletionItem where
  label : String
  kind : Option CompletionItemKind := none
  deprecated : Bool := false
  documentation : Option String := none
  insertText : Option String := none
  insertTextFormat : Option InsertTextFormat := none
  command : Option Command := none
  detail : Option String := none
deriving DecidableEq, Repr

/-- lsp::ParameterInformation; `documentation` holds the plain text value. -/
structure ParameterInformation where
  label : String
  documentation : String
deriving DecidableEq, Repr

/-- lsp::SignatureInformation; `documentation` holds the rendered text. -/
structure SignatureInformation where
  label : String
  documentation : String
  parameters : List ParameterInformation
deriving DecidableEq, Repr

structure SignatureHelp where
  signatures : List SignatureInformation
  activeSignature : Nat
  activeParameter : Nat
deriving DecidableEq, Repr

end lsp

namespace Luau

/-- Luau::Position (zero based line / column). -/
structure Position where
  line : Nat
  column : Nat
deriving DecidableEq, Repr

/-- Luau::Location.  The C++ fields `begin` / `end` are renamed (reserved). -/
structure Location where
  first : Position
  last : Position
deriving DecidableEq, Repr

/-- Luau::TypeError as consumed by Workspace.hpp: the originating module, the
location, whether the payload is a SyntaxError, the rendered message text and
the numeric code (as a string, as placed into lsp::Diagnostic::code). -/
structure TypeError where
  moduleName : ModuleName
  location : Location
  isSyntax : Bool
  message : String
  code : String
deriving DecidableEq, Repr

/-- Luau::CheckResult.  A default constructed value has no errors. -/
structure CheckResult where
  errors : List TypeError := []
deriving DecidableEq, Repr

/-- Luau::LintWarning: code, the name of the code (LintWarning::getName), the
text and the location. -/
structure LintWarning where
  code : String
  name : String
  text : String
  location : Location
deriving DecidableEq, Repr

/-- Luau::LintResult as consumed by Workspace.hpp. -/
structure LintResult where
  errors : List LintWarning := []
  warnings : List LintWarning := []
deriving DecidableEq, Repr

inductive AutocompleteEntryKind where
  | Property
  | Binding
  | Keyword
  | StringK
  | TypeK
  | ModuleK
deriving DecidableEq, Repr

inductive ParenthesesRecommendation where
  | None
  | CursorAfter
  | CursorInside
deriving DecidableEq, Repr

/-- A Luau type handle; the engine oracle maps handles to shapes. -/
abbrev TypeId := Nat

/-- The shape of a followed Luau type, as far as Workspace.hpp inspects it:
function types (with self flag, argument names and argument types),
intersections (overload sets), named table types, class types, or anything
else. -/
inductive TypeShape where
  | fn (hasSelf : Bool) (argNames : List (Option String)) (argTypes : List TypeId)
  | intersection (parts : List TypeId)
  | table (tname : Option String)
  | classTy
  | otherTy
deriving DecidableEq, Repr

/-- Luau::AutocompleteEntry as consumed by Workspace.hpp. -/
structure AutocompleteEntry where
  kind : AutocompleteEntryKind
  deprecated : Bool := false
  documentationSymbol : Option String := none
  parens : ParenthesesRecommendation := ParenthesesRecommendation.None
  type : Option TypeId := none
deriving DecidableEq, Repr

/-- An AST node of the ancestry returned by findAstAncestryOfPosition, as far
as signatureHelp inspects it: either an AstExprCall (with its number of
arguments, the method-call `self` flag, and a key identifying its func
expression in the astTypes map) or any other node. -/
inductive AstNode where
  | exprCall (args : Nat) (self : Bool) (funcKey : Nat)
  | otherNode
deriving DecidableEq, Repr

end Luau

/-- A node of the sourcemap tree (SourceNode from Sourcemap.hpp, which is not
under src/): class name, instance name, children. -/
inductive SourceNode where
  | mk : String → String → List SourceNode → SourceNode

def SourceNode.className : SourceNode → String
  | .mk c _ _ => c

def SourceNode.name : SourceNode → String
  | .mk _ n _ => n

def SourceNode.children : SourceNode → List SourceNode
  | .mk _ _ cs => cs

/-- convertPosition (lsp to Luau): the asserted unsigned casts are the
identity on the Nat model. -/
def convertPosition (p : lsp.Position) : Luau.Position :=
  { line := p.line, column := p.character }

/-- convertPosition (Luau to lsp). -/
def convertPositionBack (p : Luau.Position) : lsp.Position :=
  { line := p.line, character := p.column }

/-- Modelled from the spec: `Uri` (Uri.hpp is not under src/).  A URI value
carries its serialized string form (`toString()`) and its filesystem path in
generic, forward slash form (`fsPath().generic_string()`). -/
structure Uri where
  str : String
  fsPath : String
deriving DecidableEq, Repr

/-- getModuleName(const Uri&): `name.fsPath().generic_string()`. -/
def getModuleName (uri : Uri) : ModuleName :=
  uri.fsPath

/-- A content change of a didChange notification: either a full text
replacement or a range based patch. -/
inductive ContentChange where
  | full (text : String)
  | range (rng : lsp.Range) (text : String)
deriving DecidableEq, Repr

/-- lsp::DidChangeTextDocumentParams restricted to what updateTextDocument
reads: the ordered content changes and the new version number. -/
structure DidChangeTextDocumentParams where
  contentChanges : List ContentChange
  version : Int
deriving DecidableEq, Repr

/-- A managed document of the document store (TextDocument.hpp, not under
src/): identity, language tag, version counter, full text. -/
structure TextDocument where
  uri : Uri
  languageId : String
  version : Int
  text : String
deriving DecidableEq, Repr

/-- Character offset of a (line, character) position in a character list:
walk the characters, decrementing the remaining line count at each newline. -/
def offsetAt : List Char → Nat → Nat → Nat
  | _, 0, col => col
  | [], _ + 1, _ => 0
  | c :: rest, l + 1, col => 1 + offsetAt rest (if c = '\n' then l else l + 1) col

/-- Modelled from the spec: application of one edit in TextDocument::update
(TextDocument.hpp is not under src/).  "each edit may be a full-text replace
or a range-based patch": a full change replaces the whole text, a range change
splices the new text over the addressed character range. -/
def applyContentChange (text : String) : ContentChange → String
  | .full t => t
  | .range rng t =>
    let cs := text.data
    let s := offsetAt cs rng.start.line rng.start.character
    let e := offsetAt cs rng.finish.line rng.finish.character
    String.mk (cs.take s ++ t.data ++ cs.drop e)

/-- Modelled from the spec: TextDocument::update (TextDocument.hpp is not
under src/) "applies edits in order" and advances the version counter to the
version carried by the notification. -/
def TextDocument.update (td : TextDocument) (changes : List ContentChange) (version : Int) :
    TextDocument :=
  { td with text := changes.foldl applyContentChange td.text, version := version }

/-- The state of one WorkspaceFolder together with its external collaborators.
The Luau frontend (`dirty`, `checkResult`, `sourceModule`, `lintResult`,
`autocompleteEntries`, `ancestry`, `astType`, `follow`, `shape`, rendering
functions), the client (`ignoreGlobs` from getConfiguration, `printDocs`,
`definitionsFile`), the filesystem (`readFile`), the glob library
(`fnmatchCase`) and std::filesystem (`lexRelativeRoot`) are external black
boxes and appear as oracle fields.  `resolveVirtualPathToRealPath`,
`rootSourceNode`, `getSourceNode` and `fileUriString` are modelled from the
spec: they belong to WorkspaceFileResolver / Uri, whose sources are not under
src/ (spec 4.1: `realPathForVirtual(virtualPath) -> Option<path>`, sourcemap
tree root, `nodeAt`, and the serialized URI of a real file). -/
structure WorkspaceFolder where
  /-- Display name of the workspace. -/
  name : String
  /-- Serialized root URI string (`rootUri.toString()`). -/
  rootUri : String
  /-- `rootUri.fsPath()` in generic form. -/
  rootFsPath : String
  /-- The document store: managedFiles of WorkspaceFileResolver. -/
  managedFiles : List (ModuleName × TextDocument)
  /-- Frontend dirty set: `frontend.isDirty`. -/
  dirty : ModuleName → Bool
  /-- Result of `frontend.check` for a module (also the cached analysis). -/
  checkResult : ModuleName → Luau.CheckResult
  /-- Whether `frontend.getSourceModule` yields a source module. -/
  sourceModule : ModuleName → Bool
  /-- Result of `frontend.lint`. -/
  lintResult : ModuleName → Luau.LintResult
  /-- Entries of `Luau::autocomplete` (entryMap as an association list). -/
  autocompleteEntries : ModuleName → lsp.Position → List (String × Luau.AutocompleteEntry)
  /-- `Luau::findAstAncestryOfPosition` on the source module. -/
  ancestry : ModuleName → lsp.Position → List Luau.AstNode
  /-- `module->astTypes.find` keyed by the func expression of a call. -/
  astType : ModuleName → Nat → Option Luau.TypeId
  /-- `Luau::follow`. -/
  follow : Luau.TypeId → Luau.TypeId
  /-- Shape of a type handle (`Luau::get<...TypeVar>`). -/
  shape : Luau.TypeId → Luau.TypeShape
  /-- `type->documentationSymbol`. -/
  docSymbolOf : Luau.TypeId → Option String
  /-- `Luau::toString` of a type. -/
  toStringTy : Luau.TypeId → String
  /-- `types::toStringNamedFunction` for a function type handle. -/
  toStringNamedFn : Luau.TypeId → String
  /-- `printDocumentation(client->documentation, symbol)`. -/
  printDocs : String → String
  /-- Modelled from the spec: `fileResolver.resolveVirtualPathToRealPath`. -/
  resolveVirtualPathToRealPath : ModuleName → Option String
  /-- `path.lexically_relative(rootUri.fsPath()).generic_string()`. -/
  lexRelativeRoot : String → String
  /-- `glob::fnmatch_case relativePath pattern`. -/
  fnmatchCase : String → String → Bool
  /-- `client->getConfiguration(rootUri).ignoreGlobs`. -/
  ignoreGlobs : List String
  /-- Modelled from the spec: `Uri::file(path).toString()`. -/
  fileUriString : String → String
  /-- `readFile` from Utils.hpp (filesystem oracle). -/
  readFile : String → Option String
  /-- `client->definitionsFile`. -/
  definitionsFile : Option String
  /-- Whether `Luau::loadDefinitionFile` succeeds on the definitions file. -/
  loadDefinitionsOk : Bool
  /-- Modelled from the spec: `fileResolver.rootSourceNode`. -/
  rootSourceNode : Option SourceNode
  /-- `typeChecker.globalScope->lookupType name`: `some b` when the type is
  found, with `b` true when it is a mutable ClassTypeVar. -/
  lookupType : String → Option Bool

/-- isInWorkspace: `checkStr.compare(0, prefixStr.size(), prefixStr) == 0`,
i.e. the first `prefixStr.size()` characters of the file URI string equal the
root URI string. -/
def isInWorkspace (ws : WorkspaceFolder) (file : Uri) : Bool :=
  let p := ws.rootUri.data
  let c := file.str.data
  decide (c.take p.length = p)

/-- isIgnoredFile: the path relative to the workspace root, in generic
(forward slash) form, is matched case sensitively against each configured
ignore glob; any match ignores the file. -/
def isIgnoredFile (ws : WorkspaceFolder) (path : String) : Bool :=
  let relativePath := ws.lexRelativeRoot path
  ws.ignoreGlobs.any (fun pattern => ws.fnmatchCase relativePath pattern)

/-- createTypeErrorDiagnostic. -/
def createTypeErrorDiagnostic (error : Luau.TypeError) : lsp.Diagnostic :=
  { source := "Luau"
    code := error.code
    message := (if error.isSyntax then "SyntaxError: " else "TypeError: ") ++ error.message
    severity := lsp.DiagnosticSeverity.error
    range := { start := convertPositionBack error.location.first
               finish := convertPositionBack error.location.last } }

/-- createLintDiagnostic (severity Warning; documentDiagnostics upgrades the
entries of LintResult::errors afterwards). -/
def createLintDiagnostic (lint : Luau.LintWarning) : lsp.Diagnostic :=
  { source := "Luau"
    code := lint.code
    message := lint.name ++ ": " ++ lint.text
    severity := lsp.DiagnosticSeverity.warning
    range := { start := convertPositionBack lint.location.first
               finish := convertPositionBack lint.location.last } }

/-- The synthetic diagnostic emitted when the source module cannot be
resolved. -/
def resolutionFailureDiagnostic : lsp.Diagnostic :=
  { source := "Luau"
    code := "000"
    message := "Failed to resolve source module for this file"
    severity := lsp.DiagnosticSeverity.error
    range := { start := { line := 0, character := 0 }
               finish := { line := 0, character := 0 } } }

/-- `relatedDiagnostics[uri]` followed by `emplace_back(diagnostic)`: append
the diagnostic to the bucket of the key, creating the bucket at the end of the
association list when absent. -/
def insertRelated : List (String × List lsp.Diagnostic) → String → lsp.Diagnostic →
    List (String × List lsp.Diagnostic)
  | [], k, d => [(k, [d])]
  | (k', ds) :: rest, k, d =>
    if k' = k then (k', ds ++ [d]) :: rest else (k', ds) :: insertRelated rest k d

/-- The type error loop of documentDiagnostics: own module errors are appended
to the primary items, others are bucketed per origin URI unless the origin has
no real path or its real path is ignore globbed. -/
def processTypeErrors (ws : WorkspaceFolder) (moduleName : ModuleName) :
    List Luau.TypeError → List lsp.Diagnostic → List (String × List lsp.Diagnostic) →
    List lsp.Diagnostic × List (String × List lsp.Diagnostic)
  | [], items, related => (items, related)
  | error :: rest, items, related =>
    let diagnostic := createTypeErrorDiagnostic error
    if error.moduleName = moduleName then
      processTypeErrors ws moduleName rest (items ++ [diagnostic]) related
    else
      match ws.resolveVirtualPathToRealPath error.moduleName with
      | none => processTypeErrors ws moduleName rest items related
      | some fileName =>
        if isIgnoredFile ws fileName then
          processTypeErrors ws moduleName rest items related
        else
          processTypeErrors ws moduleName rest items
            (insertRelated related (ws.fileUriString fileName) diagnostic)

/-- `frontend.check` clears the dirty mark of the checked module. -/
def clearDirty (ws : WorkspaceFolder) (moduleName : ModuleName) : WorkspaceFolder :=
  { ws with dirty := fun n => if n = moduleName then false else ws.dirty n }

/-- The lint section of documentDiagnostics: entries of LintResult::errors are
reported with severity upgraded to Error, warnings stay warnings. -/
def lintDiagnostics (ws : WorkspaceFolder) (moduleName : ModuleName) : List lsp.Diagnostic :=
  (ws.lintResult moduleName).errors.map
      (fun e => { createLintDiagnostic e with severity := lsp.DiagnosticSeverity.error })
    ++ (ws.lintResult moduleName).warnings.map createLintDiagnostic

/-- documentDiagnostics.  Returns the report together with the frontend state
after the call (check, when run, clears the dirty mark).  Note the C++ local
`cr` is default constructed and only assigned when the module is dirty: a
clean module contributes no type errors at all. -/
def documentDiagnostics (ws : WorkspaceFolder) (uri : Uri) :
    lsp.DocumentDiagnosticReport × WorkspaceFolder :=
  let moduleName := getModuleName uri
  let cr : Luau.CheckResult :=
    if ws.dirty moduleName then ws.checkResult moduleName else {}
  let ws1 := if ws.dirty moduleName then clearDirty ws moduleName else ws
  if ws.sourceModule moduleName = false then
    ({ items := [resolutionFailureDiagnostic], relatedDocuments := [] }, ws1)
  else
    let processed := processTypeErrors ws moduleName cr.errors [] []
    ({ items := processed.1 ++ lintDiagnostics ws moduleName
       relatedDocuments := processed.2 }, ws1)

/-- `managedFiles.find(moduleName)` on the association list model of the
document store. -/
def findManaged : List (ModuleName × TextDocument) → ModuleName → Option TextDocument
  | [], _ => none
  | (k, td) :: rest, m => if k = m then some td else findManaged rest m

/-- In place mutation of the entry of a key (`managedFiles.at(moduleName)`
followed by `update`). -/
def updateManaged (f : TextDocument → TextDocument) :
    List (ModuleName × TextDocument) → ModuleName → List (ModuleName × TextDocument)
  | [], _ => []
  | (k, td) :: rest, m =>
    if k = m then (k, f td) :: rest else (k, td) :: updateManaged f rest m

/-- The warning printed by updateTextDocument for an unopened document. -/
def notLoadedWarning (uri : Uri) : String :=
  "Text Document not loaded locally: " ++ uri.str

/-- updateTextDocument.  Returns the updated workspace state together with the
warnings written to stderr; an unopened document leaves the state untouched
and is never surfaced as an error to the caller (the C++ function returns
normally in both branches). -/
def updateTextDocument (ws : WorkspaceFolder) (uri : Uri)
    (params : DidChangeTextDocumentParams) : WorkspaceFolder × List String :=
  let moduleName := getModuleName uri
  match findManaged ws.managedFiles moduleName with
  | none => (ws, [notLoadedWarning uri])
  | some _ =>
    ({ ws with
        managedFiles :=
          updateManaged (fun td => td.update params.contentChanges params.version)
            ws.managedFiles moduleName
        dirty := fun n => if n = moduleName then true else ws.dirty n }, [])

/-- Mapping of Luau::AutocompleteEntryKind to lsp::CompletionItemKind (the
switch in completion). -/
def kindForEntry : Luau.AutocompleteEntryKind → lsp.CompletionItemKind
  | .Property => .Field
  | .Binding => .Variable
  | .Keyword => .Keyword
  | .StringK => .Constant
  | .TypeK => .Interface
  | .ModuleK => .Module

/-- The loop body of completion: build one lsp::CompletionItem from an
autocomplete entry (label and kind, documentation, parentheses snippet, then
the type based kind/detail refinement). -/
def completionItemFor (ws : WorkspaceFolder) (name : String)
    (entry : Luau.AutocompleteEntry) : lsp.CompletionItem :=
  let item0 : lsp.CompletionItem :=
    { label := name
      deprecated := entry.deprecated
      documentation := entry.documentationSymbol.map (fun s => ws.printDocs s)
      kind := some (kindForEntry entry.kind) }
  let item1 :=
    match entry.parens with
    | .None => item0
    | .CursorAfter =>
      { item0 with
          insertText := some (name ++ "()$0")
          insertTextFormat := some lsp.InsertTextFormat.Snippet }
    | .CursorInside =>
      { item0 with
          insertText := some (name ++ "($1)$0")
          insertTextFormat := some lsp.InsertTextFormat.Snippet
          command := some { title := "Trigger Signature Help"
                            command := "editor.action.triggerParameterHints" } }
  match entry.type with
  | none => item1
  | some t =>
    let id := ws.follow t
    let item2 :=
      match ws.shape id with
      | .fn _ _ _ => { item1 with kind := some lsp.CompletionItemKind.Function }
      | .table tname =>
        if tname = some "RBXScriptSignal" then
          { item1 with kind := some lsp.CompletionItemKind.Event }
        else item1
      | .classTy => { item1 with kind := some lsp.CompletionItemKind.Class }
      | _ => item1
    { item2 with detail := some (ws.toStringTy id) }

/-- completion: every entry of the autocomplete result is translated by
`completionItemFor`. -/
def completion (ws : WorkspaceFolder) (uri : Uri) (position : lsp.Position) :
    List lsp.CompletionItem :=
  (ws.autocompleteEntries (getModuleName uri) position).map
    (fun p => completionItemFor ws p.1 p.2)

/-- The call expression data signatureHelp extracts from a candidate node. -/
structure CallCandidate where
  args : Nat
  self : Bool
  funcKey : Nat
deriving DecidableEq, Repr

/-- `node->as<Luau::AstExprCall>()`. -/
def asCall : Luau.AstNode → Option CallCandidate
  | .exprCall a s f => some { args := a, self := s, funcKey := f }
  | .otherNode => none

/-- Candidate search of signatureHelp: try `ancestry.back()`, and when that is
not a call and the ancestry has at least two nodes, try
`ancestry.at(ancestry.size() - 2)`. -/
def findCandidate (ancestry : List Luau.AstNode) : Option CallCandidate :=
  match ancestry.getLast? with
  | none => none
  | some last =>
    match asCall last with
    | some c => some c
    | none =>
      if 2 ≤ ancestry.length then
        match ancestry.get? (ancestry.length - 2) with
        | some node => asCall node
        | none => none
      else none

/-- The parameter label loop of addSignature: walk the argument types with
their index; when the function has self and the call used method syntax the
index 0 parameter is skipped; each label is the declared argument name (when
present in argNames) followed by the rendered argument type. -/
def paramLabelsGo (ws : WorkspaceFolder) (skipSelf : Bool) (argNames : List (Option String)) :
    Nat → List Luau.TypeId → List lsp.ParameterInformation
  | _, [] => []
  | idx, t :: rest =>
    if idx == 0 && skipSelf then
      paramLabelsGo ws skipSelf argNames (idx + 1) rest
    else
      let namePart :=
        match argNames.get? idx with
        | some (some n) => n ++ ": "
        | _ => ""
      { label := namePart ++ ws.toStringTy t, documentation := "" }
        :: paramLabelsGo ws skipSelf argNames (idx + 1) rest

/-- addSignature: label is the named function rendering of the overload,
documentation comes from the followed callee type, parameters from the
argument list. -/
def mkSignature (ws : WorkspaceFolder) (callSelf : Bool) (followedId : Luau.TypeId)
    (tyId : Luau.TypeId) (hasSelf : Bool) (argNames : List (Option String))
    (argTypes : List Luau.TypeId) : lsp.SignatureInformation :=
  { label := ws.toStringNamedFn tyId
    documentation :=
      match ws.docSymbolOf followedId with
      | some s => ws.printDocs s
      | none => ""
    parameters := paramLabelsGo ws (hasSelf && callSelf) argNames 0 argTypes }

/-- signatureHelp.  The unconditional `frontend.check` at the top only
refreshes engine state (recorded by `signatureHelpCalls`); the returned value
is built as in the source: nullopt without a source module, an ancestry, a
call candidate or a type for the callee, otherwise a SignatureHelp whose
active signature index is the literal 0 and whose active parameter index is
`args.size == 0 ? 0 : args.size - 1`. -/
def signatureHelp (ws : WorkspaceFolder) (uri : Uri) (position : lsp.Position) :
    Option lsp.SignatureHelp :=
  let moduleName := getModuleName uri
  if ws.sourceModule moduleName = false then none
  else
    let ancestry := ws.ancestry moduleName position
    if ancestry.length = 0 then none
    else
      match findCandidate ancestry with
      | none => none
      | some candidate =>
        let activeParameter := if candidate.args = 0 then 0 else candidate.args - 1
        match ws.astType moduleName candidate.funcKey with
        | none => none
        | some ty =>
          let followedId := ws.follow ty
          let sigsSingle :=
            match ws.shape followedId with
            | .fn hasSelf argNames argTypes =>
              [mkSignature ws candidate.self followedId followedId hasSelf argNames argTypes]
            | _ => []
          let sigsOverload :=
            match ws.shape followedId with
            | .intersection parts =>
              parts.foldr
                (fun part acc =>
                  match ws.shape part with
                  | .fn hasSelf argNames argTypes =>
                    mkSignature ws candidate.self followedId part hasSelf argNames argTypes :: acc
                  | _ => acc) []
            | _ => []
          some { signatures := sigsSingle ++ sigsOverload
                 activeSignature := 0
                 activeParameter := activeParameter }

/-- An interaction with the analysis engine, the global type environment, the
client or the filesystem, as performed by the source.  `mainChecker` is true
for `frontend.typeChecker` and false for `frontend.typeCheckerForAutocomplete`. -/
inductive EngineCall where
  | readSourceMapFile
  | updateResolverSourceMap
  | windowMessage (msg : String)
  | logMessage
  | registerBuiltinTypes (mainChecker : Bool)
  | loadDefinitionFile (mainChecker : Bool)
  | mutateGlobalType (mainChecker : Bool) (childName : String)
  | setPrepareModuleScope (mainChecker : Bool)
  | attachMagic (mainChecker : Bool) (propName : String)
  | freeze (mainChecker : Bool)
  | isDirty (moduleName : ModuleName)
  | check (moduleName : ModuleName)
  | lint (moduleName : ModuleName)
  | getSourceModule (moduleName : ModuleName)
  | getModule (moduleName : ModuleName)
  | getConfiguration
  | autocomplete (moduleName : ModuleName)
deriving DecidableEq, Repr

/-- Calls that write to the shared global type environment of a checker:
registering builtin types, loading a definitions file into the global scope,
extending the props of a global class type, installing the prepareModuleScope
hook, and attaching magic functions to global types. -/
def isGlobalEnvMutation : EngineCall → Bool
  | .registerBuiltinTypes _ => true
  | .loadDefinitionFile _ => true
  | .mutateGlobalType _ _ => true
  | .setPrepareModuleScope _ => true
  | .attachMagic _ _ => true
  | _ => false

def isFreeze : EngineCall → Bool
  | .freeze _ => true
  | _ => false

/-- Result of updateSourceMap: true exactly when sourcemap.json could be read
at the workspace root. -/
def updateSourceMap (ws : WorkspaceFolder) : Bool :=
  (ws.readFile (ws.rootFsPath ++ "/sourcemap.json")).isSome

/-- Call trace of updateSourceMap: the read is attempted, and on success the
resolver tree is replaced. -/
def updateSourceMapTrace (ws : WorkspaceFolder) : List EngineCall :=
  match ws.readFile (ws.rootFsPath ++ "/sourcemap.json") with
  | some _ => [.readSourceMapFile, .updateResolverSourceMap]
  | none => [.readSourceMapFile]

def isNullWorkspace (ws : WorkspaceFolder) : Bool :=
  ws.name = "$NULL_WORKSPACE"

/-- The window message of setup for a failed sourcemap load (the single
quotes around the name are elided in the model). -/
def sourcemapFailMessage (name : String) : String :=
  "Failed to load sourcemap.json for workspace " ++ name
    ++ ". Instance information will not be available"

/-- The mutations performed by the service loop of registerExtendedTypes: for
every child of the root whose class name resolves to a mutable global class
type, every grandchild is injected as a synthetic property of that type. -/
def servicesTrace (ws : WorkspaceFolder) (mainChecker : Bool) :
    List SourceNode → List EngineCall
  | [] => []
  | service :: rest =>
    (if ws.lookupType service.className = some true then
      service.children.map (fun child => EngineCall.mutateGlobalType mainChecker child.name)
    else [])
      ++ servicesTrace ws mainChecker rest

/-- The trailing block of registerExtendedTypes: when the global type
`Instance` is a mutable class, six magic functions are attached to its
methods. -/
def instanceMagicTrace (ws : WorkspaceFolder) (mainChecker : Bool) : List EngineCall :=
  if ws.lookupType "Instance" = some true then
    [.attachMagic mainChecker "IsA",
     .attachMagic mainChecker "FindFirstChildWhichIsA",
     .attachMagic mainChecker "FindFirstChildOfClass",
     .attachMagic mainChecker "FindFirstAncestorWhichIsA",
     .attachMagic mainChecker "FindFirstAncestorOfClass",
     .attachMagic mainChecker "Clone"]
  else []

/-- Call trace of registerExtendedTypes.  An unreadable definitions file only
warns and still runs the Instance block; a definitions file with a load error
warns and returns early (skipping both the sourcemap driven mutations and the
Instance block); otherwise the DataModel service loop runs, the
prepareModuleScope hook is installed, and the Instance block runs. -/
def registerExtendedTypesTrace (ws : WorkspaceFolder) (mainChecker : Bool)
    (defsPath : String) : List EngineCall :=
  match ws.readFile defsPath with
  | none =>
    [.windowMessage "Unable to read the definitions file. Extended types will not be provided"]
      ++ instanceMagicTrace ws mainChecker
  | some _ =>
    if ws.loadDefinitionsOk = false then
      [.loadDefinitionFile mainChecker,
       .windowMessage "Syntax error when reading definitions file. Extended types will not be provided"]
    else
      [EngineCall.loadDefinitionFile mainChecker]
        ++ (match ws.rootSourceNode with
            | none => []
            | some root =>
              (if root.className = "DataModel" then
                servicesTrace ws mainChecker root.children
              else [])
                ++ [.setPrepareModuleScope mainChecker])
        ++ instanceMagicTrace ws mainChecker

/-- The first statement of setup: `if (!isNullWorkspace() && !updateSourceMap())`
with short circuit evaluation — the null workspace never attempts the
sourcemap read, and a failed load only produces a window message. -/
def sourcemapSegment (ws : WorkspaceFolder) : List EngineCall :=
  if isNullWorkspace ws then []
  else
    updateSourceMapTrace ws
      ++ (if updateSourceMap ws then []
          else [.windowMessage (sourcemapFailMessage ws.name)])

/-- The definitions file handling of setup: with a definitions file, log and
run registerExtendedTypes on both checkers; without one, log and warn. -/
def definitionsSegment (ws : WorkspaceFolder) : List EngineCall :=
  match ws.definitionsFile with
  | some defsPath =>
    [EngineCall.logMessage]
      ++ registerExtendedTypesTrace ws true defsPath
      ++ registerExtendedTypesTrace ws false defsPath
  | none =>
    [.logMessage,
     .windowMessage "Definitions file was not provided by the client. Extended types will not be provided"]

/-- Everything setup does before the two freeze calls: best effort sourcemap
load (skipped entirely for the null workspace), builtin type registration for
both checkers, then definitions file handling. -/
def setupPre (ws : WorkspaceFolder) : List EngineCall :=
  sourcemapSegment ws
    ++ [.registerBuiltinTypes true, .registerBuiltinTypes false]
    ++ definitionsSegment ws

/-- Call trace of setup: the pre freeze work followed by freezing the global
types of both checkers (the last two statements of the C++ function). -/
def setupTrace (ws : WorkspaceFolder) : List EngineCall :=
  setupPre ws ++ [.freeze true, .freeze false]

/-- Engine interactions of documentDiagnostics in source order. -/
def documentDiagnosticsCalls (ws : WorkspaceFolder) (uri : Uri) : List EngineCall :=
  let moduleName := getModuleName uri
  [EngineCall.isDirty moduleName]
    ++ (if ws.dirty moduleName then [EngineCall.check moduleName] else [])
    ++ [EngineCall.getSourceModule moduleName]
    ++ (if ws.sourceModule moduleName then
          [EngineCall.getConfiguration, EngineCall.lint moduleName]
        else [])

/-- Engine interactions of completion. -/
def completionCalls (_ws : WorkspaceFolder) (uri : Uri) : List EngineCall :=
  [EngineCall.autocomplete (getModuleName uri)]

/-- Engine interactions of hover. -/
def hoverCalls (ws : WorkspaceFolder) (uri : Uri) : List EngineCall :=
  let moduleName := getModuleName uri
  [EngineCall.check moduleName, EngineCall.getSourceModule moduleName]
    ++ (if ws.sourceModule moduleName then [EngineCall.getModule moduleName] else [])

/-- Engine interactions of signatureHelp. -/
def signatureHelpCalls (ws : WorkspaceFolder) (uri : Uri) : List EngineCall :=
  let moduleName := getModuleName uri
  [EngineCall.check moduleName, EngineCall.getSourceModule moduleName]
    ++ (if ws.sourceModule moduleName then [EngineCall.getModule moduleName] else [])

/-- Engine interactions of gotoDefinition. -/
def gotoDefinitionCalls (ws : WorkspaceFolder) (uri : Uri) : List EngineCall :=
  let moduleName := getModuleName uri
  [EngineCall.isDirty moduleName]
    ++ (if ws.dirty moduleName then [EngineCall.check moduleName] else [])
    ++ [EngineCall.getSourceModule moduleName, EngineCall.getModule moduleName]

/-- The list of type errors documentDiagnostics actually draws from: the
check result when the module is dirty at entry, the default constructed empty
result otherwise. -/
def checkErrorsUsed (ws : WorkspaceFolder) (moduleName : ModuleName) : List Luau.TypeError :=
  if ws.dirty moduleName then (ws.checkResult moduleName).errors else []

/-- Following the claim wording: the primary item list holds exactly the type
errors whose origin equals the requested module, in order, with no ignore
glob filtering. -/
def primaryTypeDiagnostics (moduleName : ModuleName) (errors : List Luau.TypeError) :
    List lsp.Diagnostic :=
  (errors.filter (fun e => decide (e.moduleName = moduleName))).map createTypeErrorDiagnostic

/-- Following the claim wording: a cross module error is kept as a pair of
(URI of the origin's real path, diagnostic), and dropped entirely when the
origin cannot be mapped to a real path or that path matches an ignore glob. -/
def relatedPairs (ws : WorkspaceFolder) (moduleName : ModuleName)
    (errors : List Luau.TypeError) : List (String × lsp.Diagnostic) :=
  errors.filterMap (fun e =>
    if e.moduleName = moduleName then none
    else
      match ws.resolveVirtualPathToRealPath e.moduleName with
      | none => none
      | some p =>
        if isIgnoredFile ws p then none
        else some (ws.fileUriString p, createTypeErrorDiagnostic e))

/-- Following the claim wording: the related documents map groups the kept
cross module diagnostics under their origin URIs. -/
def relatedTypeDiagnostics (ws : WorkspaceFolder) (moduleName : ModuleName)
    (errors : List Luau.TypeError) : List (String × List lsp.Diagnostic) :=
  (relatedPairs ws moduleName errors).foldl (fun acc kd => insertRelated acc kd.1 kd.2) []

/-- A workspace state with inert oracles; the concrete test states below
override individual fields. -/
def baseWS : WorkspaceFolder :=
  { name := "test"
    rootUri := "file:///proj"
    rootFsPath := "/proj"
    managedFiles := []
    dirty := fun _ => false
    checkResult := fun _ => {}
    sourceModule := fun _ => true
    lintResult := fun _ => {}
    autocompleteEntries := fun _ _ => []
    ancestry := fun _ _ => []
    astType := fun _ _ => none
    follow := fun t => t
    shape := fun _ => Luau.TypeShape.otherTy
    docSymbolOf := fun _ => none
    toStringTy := fun _ => "any"
    toStringNamedFn := fun _ => "function f(x: any): any"
    printDocs := fun s => s
    resolveVirtualPathToRealPath := fun _ => none
    lexRelativeRoot := fun p => p
    fnmatchCase := fun _ _ => false
    ignoreGlobs := []
    fileUriString := fun p => "file://" ++ p
    readFile := fun _ => none
    definitionsFile := none
    loadDefinitionsOk := true
    rootSourceNode := none
    lookupType := fun _ => none }

/-- The request URI of the concrete scenarios: module name `/proj/a.lua`. -/
def uriA : Uri := { str := "file:///proj/a.lua", fsPath := "/proj/a.lua" }

/-- A type error originating in the requested module itself. -/
def errOwn : Luau.TypeError :=
  { moduleName := "/proj/a.lua"
    location := { first := { line := 0, column := 0 }, last := { line := 0, column := 3 } }
    isSyntax := false
    message := "Type mismatch"
    code := "1000" }

/-- Concrete state for the C1 counterexample: the module is dirty and its
(cached) check result carries one error of its own; lints are empty. -/
def wsC1 : WorkspaceFolder :=
  { baseWS with
      dirty := fun n => n == "/proj/a.lua"
      checkResult := fun n => if n = "/proj/a.lua" then { errors := [errOwn] } else {} }

/-- A type error originating in a resolvable, not ignored module. -/
def errCrossKept : Luau.TypeError :=
  { moduleName := "game/B"
    location := { first := { line := 1, column := 0 }, last := { line := 1, column := 2 } }
    isSyntax := false
    message := "Unknown type"
    code := "1001" }

/-- A type error originating in a module whose real path is ignore globbed. -/
def errCrossIgnored : Luau.TypeError :=
  { moduleName := "game/C"
    location := { first := { line := 2, column := 0 }, last := { line := 2, column := 2 } }
    isSyntax := false
    message := "Ignored origin"
    code := "1002" }

/-- A type error originating in a module with no real path. -/
def errCrossUnresolved : Luau.TypeError :=
  { moduleName := "game/D"
    location := { first := { line := 3, column := 0 }, last := { line := 3, column := 2 } }
    isSyntax := true
    message := "Unresolvable origin"
    code := "1003" }

/-- A lint warning on the requested module. -/
def lintW : Luau.LintWarning :=
  { code := "2"
    name := "UnusedVariable"
    text := "x is never used"
    location := { first := { line := 4, column := 0 }, last := { line := 4, column := 1 } } }

/-- Concrete state for the C2 witness: one own error, one kept cross module
error, one ignore globbed cross module error, one unresolvable cross module
error, plus one lint warning. -/
def wsC2 : WorkspaceFolder :=
  { baseWS with
      dirty := fun n => n == "/proj/a.lua"
      checkResult := fun n =>
        if n = "/proj/a.lua" then
          { errors := [errOwn, errCrossKept, errCrossIgnored, errCrossUnresolved] }
        else {}
      lintResult := fun n =>
        if n = "/proj/a.lua" then { warnings := [lintW] } else {}
      resolveVirtualPathToRealPath := fun n =>
        if n = "game/B" then some "/proj/b.lua"
        else if n = "game/C" then some "/proj/c.lua"
        else none
      lexRelativeRoot := fun p =>
        if p = "/proj/b.lua" then "b.lua"
        else if p = "/proj/c.lua" then "c.lua"
        else p
      fnmatchCase := fun s pattern => s == pattern
      ignoreGlobs := ["c.lua"] }

/-- Concrete state for the C3 witness: the source module of the requested
file cannot be obtained. -/
def wsC3 : WorkspaceFolder :=
  { baseWS with
      sourceModule := fun _ => false
      lintResult := fun _ => { warnings := [lintW] } }

/-- The managed document of the C4 witness. -/
def tdA : TextDocument :=
  { uri := uriA, languageId := "luau", version := 1, text := "local x = 1" }

/-- Concrete state for the C4 witness: `/proj/a.lua` is open. -/
def wsC4 : WorkspaceFolder :=
  { baseWS with managedFiles := [("/proj/a.lua", tdA)] }

/-- A URI that was never opened in wsC4. -/
def uriUnopened : Uri := { str := "file:///proj/zz.lua", fsPath := "/proj/zz.lua" }

/-- The didChange payload of the C4 witness: one full replacement. -/
def changeC4 : DidChangeTextDocumentParams :=
  { contentChanges := [ContentChange.full "local x = 2"], version := 2 }

/-- Concrete null workspace: the sourcemap file would be readable, but the
sentinel name short circuits the attempt. -/
def wsNull : WorkspaceFolder :=
  { baseWS with
      name := "$NULL_WORKSPACE"
      readFile := fun _ => some "ignored" }

/-- Concrete ordinary workspace with no sourcemap.json (readFile is none
everywhere) and no definitions file. -/
def wsNoMap : WorkspaceFolder :=
  { baseWS with name := "main" }

/-- Concrete state for the C6 and C10 witnesses: the cursor sits in a call
with two arguments (the state after the first comma has been typed), and the
callee resolves to a function type. -/
def wsSig : WorkspaceFolder :=
  { baseWS with
      ancestry := fun _ _ => [Luau.AstNode.exprCall 2 false 5]
      astType := fun _ k => if k = 5 then some 7 else none
      shape := fun t =>
        if t = 7 then Luau.TypeShape.fn false [some "x", some "y"] [1, 2]
        else Luau.TypeShape.otherTy }

/-- The cursor position of the C6 and C10 witnesses. -/
def posSig : lsp.Position := { line := 0, character := 10 }

/-- A sibling root document URI sharing the `/proj` prefix with baseWS. -/
def uriSibling : Uri := { str := "file:///proj2/a.lua", fsPath := "/proj2/a.lua" }

/-- A completion entry recommending parentheses with the cursor inside. -/
def entryInside : Luau.AutocompleteEntry :=
  { kind := Luau.AutocompleteEntryKind.Property
    parens := Luau.ParenthesesRecommendation.CursorInside }

/-- A completion entry recommending parentheses with the cursor after. -/
def entryAfter : Luau.AutocompleteEntry :=
  { kind := Luau.AutocompleteEntryKind.Binding
    parens := Luau.ParenthesesRecommendation.CursorAfter }

/-- Concrete state for the C9 witness. -/
def wsC9 : WorkspaceFolder :=
  { baseWS with
      autocompleteEntries := fun _ _ => [("foo", entryInside), ("bar", entryAfter)] }

/- ===================== Theorems ===================== -/

lemma findManaged_updateManaged (f : TextDocument → TextDocument) :
    ∀ (l : List (ModuleName × TextDocument)) (m : ModuleName),
      findManaged (updateManaged f l m) m = (findManaged l m).map f := by
  intro l
  induction l with
  | nil => intro m; rfl
  | cons p rest ih =>
    intro m
    obtain ⟨k, td⟩ := p
    by_cases h : k = m
    · simp [updateManaged, findManaged, h]
    · simp [updateManaged, findManaged, h, ih]

/-- C8: `isInWorkspace` returns true exactly when the workspace root URI
string is a character for character prefix of the document URI string;
consequently a document under the sibling root `/proj2` of a workspace rooted
at `/proj` is also reported as contained. -/
theorem claim_C8_thm :
    (∀ (ws : WorkspaceFolder) (file : Uri),
      isInWorkspace ws file = true ↔ ws.rootUri.data <+: file.str.data)
    ∧ isInWorkspace baseWS uriSibling = true := by
  constructor
  · intro ws file
    simp [isInWorkspace, List.prefix_iff_eq_take, eq_comm]
  · decide

/-- C3: when the source module of the requested file cannot be obtained after
the check step, documentDiagnostics returns a report holding exactly one
synthetic error diagnostic ranged (0,0)-(0,0), no related documents, and the
lint pass is not performed. -/
theorem claim_C3_thm (ws : WorkspaceFolder) (uri : Uri)
    (h : ws.sourceModule (getModuleName uri) = false) :
    (documentDiagnostics ws uri).1 =
      { items := [resolutionFailureDiagnostic], relatedDocuments := [] }
    ∧ resolutionFailureDiagnostic.severity = lsp.DiagnosticSeverity.error
    ∧ resolutionFailureDiagnostic.range =
        { start := { line := 0, character := 0 }, finish := { line := 0, character := 0 } }
    ∧ EngineCall.lint (getModuleName uri) ∉ documentDiagnosticsCalls ws uri := by
  refine ⟨?_, rfl, rfl, ?_⟩
  · simp [documentDiagnostics, h]
  · intro hc
    by_cases hd : ws.dirty (getModuleName uri) <;>
      simp [documentDiagnosticsCalls, h, hd] at hc

/-- Witness for C3: at the concrete state wsC3 (no source module, pending
lint results) the report consists of the synthetic diagnostic alone. -/
theorem claim_C3_witness :
    (documentDiagnostics wsC3 uriA).1 =
      { items := [resolutionFailureDiagnostic], relatedDocuments := [] }
    ∧ resolutionFailureDiagnostic.severity = lsp.DiagnosticSeverity.error
    ∧ resolutionFailureDiagnostic.range =
        { start := { line := 0, character := 0 }, finish := { line := 0, character := 0 } }
    ∧ EngineCall.lint (getModuleName uriA) ∉ documentDiagnosticsCalls wsC3 uriA :=
  claim_C3_thm wsC3 uriA rfl

/-- C10: whenever signatureHelp returns a result, the reported active
signature index is 0, whatever the overload set was. -/
theorem claim_C10_thm (ws : WorkspaceFolder) (uri : Uri) (position : lsp.Position)
    (sh : lsp.SignatureHelp) (h : signatureHelp ws uri position = some sh) :
    sh.activeSignature = 0 := by
  simp only [signatureHelp] at h
  split at h
  · exact Option.noConfusion h
  · split at h
    · exact Option.noConfusion h
    · split at h
      · exact Option.noConfusion h
      · split at h
        · exact Option.noConfusion h
        · rw [← Option.some.inj h]

/-- C10 witness: the concrete overload scenario wsSig reports active
signature 0. -/
def shSig : lsp.SignatureHelp :=
  (signatureHelp wsSig uriA posSig).getD
    { signatures := [], activeSignature := 1, activeParameter := 99 }

theorem claim_C10_witness : shSig.activeSignature = 0 :=
  claim_C10_thm wsSig uriA posSig shSig (by decide)

/-- C6: whenever signatureHelp finds an enclosing call, the reported active
parameter index equals the call's argument count minus one, and equals zero
when the call has no arguments yet. -/
theorem claim_C6_thm (ws : WorkspaceFolder) (uri : Uri) (position : lsp.Position)
    (sh : lsp.SignatureHelp) (h : signatureHelp ws uri position = some sh) :
    ∃ candidate,
      findCandidate (ws.ancestry (getModuleName uri) position) = some candidate
      ∧ (candidate.args = 0 → sh.activeParameter = 0)
      ∧ (0 < candidate.args → sh.activeParameter = candidate.args - 1) := by
  simp only [signatureHelp] at h
  split at h
  · exact Option.noConfusion h
  · split at h
    · exact Option.noConfusion h
    · split at h
      · exact Option.noConfusion h
      · next candidate heq =>
        split at h
        · exact Option.noConfusion h
        · refine ⟨candidate, heq, ?_, ?_⟩
          · intro h0
            rw [← Option.some.inj h]
            simp [h0]
          · intro hpos
            rw [← Option.some.inj h]
            simp [Nat.pos_iff_ne_zero.mp hpos]

/-- Witness for C6: in the wsSig scenario the cursor sits after the first
comma of a call carrying two arguments, and the reported active parameter
index is 1. -/
theorem claim_C6_witness :
    (∃ candidate,
      findCandidate (wsSig.ancestry (getModuleName uriA) posSig) = some candidate
      ∧ (candidate.args = 0 → shSig.activeParameter = 0)
      ∧ (0 < candidate.args → shSig.activeParameter = candidate.args - 1))
    ∧ shSig.activeParameter = 1 :=
  ⟨claim_C6_thm wsSig uriA posSig shSig (by decide), by decide⟩

/-- C9: a completion entry with the cursor-inside parentheses recommendation
yields a snippet insert text `name($1)$0` together with the
editor.action.triggerParameterHints command; a cursor-after entry yields
`name()$0` and no command; and each produced item is an element of the
completion response. -/
theorem claim_C9_thm (ws : WorkspaceFolder) (uri : Uri) (position : lsp.Position)
    (name : String) (entry : Luau.AutocompleteEntry) :
    ((name, entry) ∈ ws.autocompleteEntries (getModuleName uri) position →
      completionItemFor ws name entry ∈ completion ws uri position)
    ∧ (entry.parens = Luau.ParenthesesRecommendation.CursorInside →
        (completionItemFor ws name entry).insertText = some (name ++ "($1)$0")
        ∧ (completionItemFor ws name entry).insertTextFormat = some lsp.InsertTextFormat.Snippet
        ∧ (completionItemFor ws name entry).command =
            some { title := "Trigger Signature Help"
                   command := "editor.action.triggerParameterHints" })
    ∧ (entry.parens = Luau.ParenthesesRecommendation.CursorAfter →
        (completionItemFor ws name entry).insertText = some (name ++ "()$0")
        ∧ (completionItemFor ws name entry).insertTextFormat = some lsp.InsertTextFormat.Snippet
        ∧ (completionItemFor ws name entry).command = none) := by
  refine ⟨?_, ?_, ?_⟩
  · intro hmem
    exact List.mem_map_of_mem (fun p => completionItemFor ws p.1 p.2) hmem
  · intro hp
    unfold completionItemFor
    rw [hp]
    cases ht : entry.type with
    | none => simp
    | some t =>
      cases hs : ws.shape (ws.follow t) <;> simp [hs] <;> split <;> simp
  · intro hp
    unfold completionItemFor
    rw [hp]
    cases ht : entry.type with
    | none => simp
    | some t =>
      cases hs : ws.shape (ws.follow t) <;> simp [hs] <;> split <;> simp

/-- Witness for C9 at the concrete state wsC9: the cursor-inside entry `foo`
and the cursor-after entry `bar`. -/
theorem claim_C9_witness :
    completionItemFor wsC9 "foo" entryInside ∈ completion wsC9 uriA posSig
    ∧ (completionItemFor wsC9 "foo" entryInside).insertText = some ("foo" ++ "($1)$0")
    ∧ (completionItemFor wsC9 "foo" entryInside).command =
        some { title := "Trigger Signature Help"
               command := "editor.action.triggerParameterHints" }
    ∧ (completionItemFor wsC9 "bar" entryAfter).insertText = some ("bar" ++ "()$0")
    ∧ (completionItemFor wsC9 "bar" entryAfter).command = none :=
  ⟨(claim_C9_thm wsC9 uriA posSig "foo" entryInside).1 (by decide),
   ((claim_C9_thm wsC9 uriA posSig "foo" entryInside).2.1 rfl).1,
   ((claim_C9_thm wsC9 uriA posSig "foo" entryInside).2.1 rfl).2.2,
   ((claim_C9_thm wsC9 uriA posSig "bar" entryAfter).2.2 rfl).1,
   ((claim_C9_thm wsC9 uriA posSig "bar" entryAfter).2.2 rfl).2.2⟩

/-- C4: updateTextDocument on a URI whose module has no managed document
leaves the whole workspace state (document store and dirty set) unchanged and
only logs a warning, raising nothing to the caller; on a present URI it
applies the edits to the stored document and marks the module dirty. -/
theorem claim_C4_thm (ws : WorkspaceFolder) (uri : Uri)
    (params : DidChangeTextDocumentParams) :
    (findManaged ws.managedFiles (getModuleName uri) = none →
      (updateTextDocument ws uri params).1 = ws
      ∧ (updateTextDocument ws uri params).2 = [notLoadedWarning uri])
    ∧ (∀ td, findManaged ws.managedFiles (getModuleName uri) = some td →
        findManaged (updateTextDocument ws uri params).1.managedFiles (getModuleName uri)
          = some (td.update params.contentChanges params.version)
        ∧ (updateTextDocument ws uri params).1.dirty (getModuleName uri) = true
        ∧ (updateTextDocument ws uri params).2 = []) := by
  constructor
  · intro h
    constructor <;> simp [updateTextDocument, h]
  · intro td h
    refine ⟨?_, ?_, ?_⟩ <;>
      simp [updateTextDocument, h, findManaged_updateManaged]

/-- Witness for C4: at wsC4 an edit to the unopened `/proj/zz.lua` changes
nothing and logs the warning, while an edit to the open `/proj/a.lua` stores
the updated document and marks it dirty. -/
theorem claim_C4_witness :
    ((updateTextDocument wsC4 uriUnopened changeC4).1 = wsC4
      ∧ (updateTextDocument wsC4 uriUnopened changeC4).2 = [notLoadedWarning uriUnopened])
    ∧ (findManaged (updateTextDocument wsC4 uriA changeC4).1.managedFiles (getModuleName uriA)
        = some (tdA.update changeC4.contentChanges changeC4.version)
      ∧ (updateTextDocument wsC4 uriA changeC4).1.dirty (getModuleName uriA) = true
      ∧ (updateTextDocument wsC4 uriA changeC4).2 = []) :=
  ⟨(claim_C4_thm wsC4 uriUnopened changeC4).1 (by decide),
   (claim_C4_thm wsC4 uriA changeC4).2 tdA (by decide)⟩

lemma processTypeErrors_spec (ws : WorkspaceFolder) (m : ModuleName) :
    ∀ (errors : List Luau.TypeError) (items : List lsp.Diagnostic)
      (related : List (String × List lsp.Diagnostic)),
      processTypeErrors ws m errors items related =
        (items ++ primaryTypeDiagnostics m errors,
         (relatedPairs ws m errors).foldl (fun acc kd => insertRelated acc kd.1 kd.2) related) := by
  intro errors
  induction errors with
  | nil =>
    intro items related
    simp [processTypeErrors, primaryTypeDiagnostics, relatedPairs]
  | cons e rest ih =>
    intro items related
    by_cases h : e.moduleName = m
    · simp [processTypeErrors, h, ih, primaryTypeDiagnostics, relatedPairs,
        List.filter_cons, List.filterMap_cons, List.append_assoc]
    · cases hr : ws.resolveVirtualPathToRealPath e.moduleName with
      | none =>
        simp [processTypeErrors, h, hr, ih, primaryTypeDiagnostics, relatedPairs,
          List.filter_cons, List.filterMap_cons]
      | some p =>
        by_cases hi : isIgnoredFile ws p
        · simp [processTypeErrors, h, hr, hi, ih, primaryTypeDiagnostics, relatedPairs,
            List.filter_cons, List.filterMap_cons]
        · simp [processTypeErrors, h, hr, hi, ih, primaryTypeDiagnostics, relatedPairs,
            List.filter_cons, List.filterMap_cons]

/-- C2: when the requested module has a source unit, the primary item list of
documentDiagnostics consists of exactly the type errors originating in the
requested module itself (never ignore glob filtered) followed by the lint
results, while every other type error is grouped into the related documents
map under the URI of its origin's real path — dropped entirely when the
origin has no real path or that path (relative to the workspace root, forward
slash normalized, case sensitively matched) hits an ignore glob. -/
theorem claim_C2_thm (ws : WorkspaceFolder) (uri : Uri)
    (h : ws.sourceModule (getModuleName uri) = true) :
    (documentDiagnostics ws uri).1.items =
      primaryTypeDiagnostics (getModuleName uri) (checkErrorsUsed ws (getModuleName uri))
        ++ lintDiagnostics ws (getModuleName uri)
    ∧ (documentDiagnostics ws uri).1.relatedDocuments =
        relatedTypeDiagnostics ws (getModuleName uri) (checkErrorsUsed ws (getModuleName uri)) := by
  by_cases hd : ws.dirty (getModuleName uri) <;>
    simp [documentDiagnostics, h, hd, checkErrorsUsed, relatedTypeDiagnostics,
      processTypeErrors_spec]

/-- Witness for C2 at the concrete state wsC2: one own error, one kept cross
module error, one ignore globbed cross module error, one unresolvable cross
module error, one lint warning.  The concrete report is also spelled out. -/
theorem claim_C2_witness :
    ((documentDiagnostics wsC2 uriA).1.items =
      primaryTypeDiagnostics (getModuleName uriA) (checkErrorsUsed wsC2 (getModuleName uriA))
        ++ lintDiagnostics wsC2 (getModuleName uriA)
    ∧ (documentDiagnostics wsC2 uriA).1.relatedDocuments =
        relatedTypeDiagnostics wsC2 (getModuleName uriA) (checkErrorsUsed wsC2 (getModuleName uriA)))
    ∧ (documentDiagnostics wsC2 uriA).1.items =
        [createTypeErrorDiagnostic errOwn, createLintDiagnostic lintW]
    ∧ (documentDiagnostics wsC2 uriA).1.relatedDocuments =
        [("file:///proj/b.lua", [createTypeErrorDiagnostic errCrossKept])] :=
  ⟨claim_C2_thm wsC2 uriA rfl, by decide, by decide⟩

/-- C1 counterexample: in wsC1 the module is dirty with one cached type
error.  The first documentDiagnostics call reports it and clears the dirty
mark; between the two calls isDirty is false, yet the second call reports no
type error diagnostics at all even though the cached analysis still holds the
error — the cached results are not reused and the two reports differ. -/
theorem claim_C1_counterexample :
    (documentDiagnostics wsC1 uriA).1.items = [createTypeErrorDiagnostic errOwn]
    ∧ (documentDiagnostics wsC1 uriA).2.dirty (getModuleName uriA) = false
    ∧ ((documentDiagnostics wsC1 uriA).2.checkResult (getModuleName uriA)).errors = [errOwn]
    ∧ (documentDiagnostics (documentDiagnostics wsC1 uriA).2 uriA).1.items = []
    ∧ (documentDiagnostics (documentDiagnostics wsC1 uriA).2 uriA).1.items
        ≠ (documentDiagnostics wsC1 uriA).1.items := by
  refine ⟨by decide, by decide, by decide, by decide, by decide⟩

/-- C1 amended: when the module is dirty the external check is re-run (the
call trace contains the check, and the dirty mark is cleared); when it is not
dirty no check runs and a default constructed empty check result is used
instead of the cached analysis, so the report carries no type error
diagnostics at all (only lint results) and the state is unchanged — hence two
documentDiagnostics calls that each begin with isDirty == false return
identical reports, but a dirty call followed by a clean call need not. -/
theorem claim_C1_amended_thm (ws : WorkspaceFolder) (uri : Uri) :
    (ws.dirty (getModuleName uri) = true →
      EngineCall.check (getModuleName uri) ∈ documentDiagnosticsCalls ws uri
      ∧ (documentDiagnostics ws uri).2.dirty (getModuleName uri) = false)
    ∧ (ws.dirty (getModuleName uri) = false →
      EngineCall.check (getModuleName uri) ∉ documentDiagnosticsCalls ws uri
      ∧ (documentDiagnostics ws uri).2 = ws
      ∧ (ws.sourceModule (getModuleName uri) = true →
          (documentDiagnostics ws uri).1.items = lintDiagnostics ws (getModuleName uri)
          ∧ (documentDiagnostics ws uri).1.relatedDocuments = [])
      ∧ documentDiagnostics ((documentDiagnostics ws uri).2) uri = documentDiagnostics ws uri) := by
  constructor
  · intro hd
    constructor
    · simp [documentDiagnosticsCalls, hd]
    · simp only [documentDiagnostics, hd]
      split <;> simp [clearDirty]
  · intro hd
    have hstate : (documentDiagnostics ws uri).2 = ws := by
      simp only [documentDiagnostics, hd, Bool.false_eq_true, if_false]
      split <;> rfl
    refine ⟨?_, hstate, ?_, ?_⟩
    · intro hc
      by_cases hs : ws.sourceModule (getModuleName uri) <;>
        simp [documentDiagnosticsCalls, hd, hs] at hc
    · intro hs
      constructor <;> simp [documentDiagnostics, hd, hs, processTypeErrors]
    · rw [hstate]

/-- Witness for C1 amended: the dirty branch at wsC1, the clean branch at
baseWS. -/
theorem claim_C1_witness :
    EngineCall.check (getModuleName uriA) ∈ documentDiagnosticsCalls wsC1 uriA
    ∧ (documentDiagnostics wsC1 uriA).2.dirty (getModuleName uriA) = false
    ∧ EngineCall.check (getModuleName uriA) ∉ documentDiagnosticsCalls baseWS uriA
    ∧ (documentDiagnostics baseWS uriA).1.items = lintDiagnostics baseWS (getModuleName uriA)
    ∧ documentDiagnostics ((documentDiagnostics baseWS uriA).2) uriA
        = documentDiagnostics baseWS uriA :=
  ⟨((claim_C1_amended_thm wsC1 uriA).1 (by decide)).1,
   ((claim_C1_amended_thm wsC1 uriA).1 (by decide)).2,
   ((claim_C1_amended_thm baseWS uriA).2 rfl).1,
   (((claim_C1_amended_thm baseWS uriA).2 rfl).2.2.1 rfl).1,
   ((claim_C1_amended_thm baseWS uriA).2 rfl).2.2.2⟩

lemma servicesTrace_mem (ws : WorkspaceFolder) (mc : Bool) :
    ∀ (nodes : List SourceNode) (c : EngineCall), c ∈ servicesTrace ws mc nodes →
      ∃ n, c = EngineCall.mutateGlobalType mc n := by
  intro nodes
  induction nodes with
  | nil => intro c hc; simp [servicesTrace] at hc
  | cons service rest ih =>
    intro c hc
    rw [servicesTrace] at hc
    rcases List.mem_append.mp hc with hc | hc
    · split at hc
      · rcases List.mem_map.mp hc with ⟨child, _, rfl⟩
        exact ⟨child.name, rfl⟩
      · simp at hc
    · exact ih c hc

lemma instanceMagicTrace_mem (ws : WorkspaceFolder) (mc : Bool) (c : EngineCall)
    (hc : c ∈ instanceMagicTrace ws mc) : ∃ s, c = EngineCall.attachMagic mc s := by
  rw [instanceMagicTrace] at hc
  split at hc
  · fin_cases hc <;> exact ⟨_, rfl⟩
  · simp at hc

lemma registerExtendedTypesTrace_mem (ws : WorkspaceFolder) (mc : Bool) (defsPath : String)
    (c : EngineCall) (hc : c ∈ registerExtendedTypesTrace ws mc defsPath) :
    isFreeze c = false ∧ c ≠ EngineCall.readSourceMapFile := by
  rw [registerExtendedTypesTrace] at hc
  split at hc
  · rcases List.mem_append.mp hc with hc | hc
    · fin_cases hc
      exact ⟨rfl, fun h => EngineCall.noConfusion h⟩
    · rcases instanceMagicTrace_mem ws mc c hc with ⟨s, rfl⟩
      exact ⟨rfl, fun h => EngineCall.noConfusion h⟩
  · split at hc
    · fin_cases hc
      · exact ⟨rfl, fun h => EngineCall.noConfusion h⟩
      · exact ⟨rfl, fun h => EngineCall.noConfusion h⟩
    · rcases List.mem_append.mp hc with hc | hc
      · rcases List.mem_append.mp hc with hc | hc
        · fin_cases hc
          exact ⟨rfl, fun h => EngineCall.noConfusion h⟩
        · split at hc
          · simp at hc
          · rcases List.mem_append.mp hc with hc | hc
            · split at hc
              · rcases servicesTrace_mem ws mc _ c hc with ⟨n, rfl⟩
                exact ⟨rfl, fun h => EngineCall.noConfusion h⟩
              · simp at hc
            · fin_cases hc
              exact ⟨rfl, fun h => EngineCall.noConfusion h⟩
      · rcases instanceMagicTrace_mem ws mc c hc with ⟨s, rfl⟩
        exact ⟨rfl, fun h => EngineCall.noConfusion h⟩

lemma definitionsSegment_mem (ws : WorkspaceFolder) (c : EngineCall)
    (hc : c ∈ definitionsSegment ws) :
    isFreeze c = false ∧ c ≠ EngineCall.readSourceMapFile := by
  rw [definitionsSegment] at hc
  split at hc
  · rcases List.mem_append.mp hc with hc | hc
    · rcases List.mem_append.mp hc with hc | hc
      · fin_cases hc
        exact ⟨rfl, fun h => EngineCall.noConfusion h⟩
      · exact registerExtendedTypesTrace_mem ws true _ c hc
    · exact registerExtendedTypesTrace_mem ws false _ c hc
  · fin_cases hc
    · exact ⟨rfl, fun h => EngineCall.noConfusion h⟩
    · exact ⟨rfl, fun h => EngineCall.noConfusion h⟩

lemma sourcemapSegment_noFreeze (ws : WorkspaceFolder) (c : EngineCall)
    (hc : c ∈ sourcemapSegment ws) : isFreeze c = false := by
  rw [sourcemapSegment] at hc
  split at hc
  · simp at hc
  · rcases List.mem_append.mp hc with hc | hc
    · rw [updateSourceMapTrace] at hc
      split at hc
      · fin_cases hc <;> rfl
      · fin_cases hc; rfl
    · split at hc
      · simp at hc
      · fin_cases hc; rfl

lemma setupPre_noFreeze (ws : WorkspaceFolder) (c : EngineCall)
    (hc : c ∈ setupPre ws) : isFreeze c = false := by
  rw [setupPre] at hc
  rcases List.mem_append.mp hc with hc | hc
  · rcases List.mem_append.mp hc with hc | hc
    · exact sourcemapSegment_noFreeze ws c hc
    · fin_cases hc <;> rfl
  · exact (definitionsSegment_mem ws c hc).1

/-- C5: the null workspace (sentinel name) never attempts the sourcemap read
at all; every other workspace with a missing sourcemap.json gets
`updateSourceMap = false`, a warning, and setup still registers builtin types
for both checkers and finishes with the two freeze calls. -/
theorem claim_C5_thm (ws : WorkspaceFolder) :
    (ws.name = "$NULL_WORKSPACE" → EngineCall.readSourceMapFile ∉ setupTrace ws)
    ∧ (ws.name ≠ "$NULL_WORKSPACE" →
        ws.readFile (ws.rootFsPath ++ "/sourcemap.json") = none →
        updateSourceMap ws = false
        ∧ EngineCall.windowMessage (sourcemapFailMessage ws.name) ∈ setupTrace ws
        ∧ EngineCall.registerBuiltinTypes true ∈ setupTrace ws
        ∧ EngineCall.registerBuiltinTypes false ∈ setupTrace ws
        ∧ setupTrace ws = setupPre ws ++ [EngineCall.freeze true, EngineCall.freeze false]) := by
  constructor
  · intro hn hc
    have hnull : isNullWorkspace ws = true := by simp [isNullWorkspace, hn]
    rw [setupTrace] at hc
    rcases List.mem_append.mp hc with hc | hc
    · rw [setupPre] at hc
      rcases List.mem_append.mp hc with hc | hc
      · rcases List.mem_append.mp hc with hc | hc
        · rw [sourcemapSegment, if_pos hnull] at hc
          simp at hc
        · simp at hc
      · exact (definitionsSegment_mem ws _ hc).2 rfl
    · simp at hc
  · intro hn hr
    have hnull : isNullWorkspace ws = false := by simp [isNullWorkspace, hn]
    have hupd : updateSourceMap ws = false := by simp [updateSourceMap, hr]
    have hseg : sourcemapSegment ws =
        [EngineCall.readSourceMapFile,
         EngineCall.windowMessage (sourcemapFailMessage ws.name)] := by
      simp [sourcemapSegment, hnull, updateSourceMapTrace, updateSourceMap, hr]
    refine ⟨hupd, ?_, ?_, ?_, rfl⟩ <;>
      rw [setupTrace, setupPre, hseg] <;> simp

/-- Witness for C5: the concrete null workspace wsNull (whose filesystem
oracle would even return a sourcemap) never reads the sourcemap; the
concrete ordinary workspace wsNoMap with no sourcemap.json warns and still
completes setup through the freeze calls. -/
theorem claim_C5_witness :
    EngineCall.readSourceMapFile ∉ setupTrace wsNull
    ∧ (updateSourceMap wsNoMap = false
      ∧ EngineCall.windowMessage (sourcemapFailMessage wsNoMap.name) ∈ setupTrace wsNoMap
      ∧ EngineCall.registerBuiltinTypes true ∈ setupTrace wsNoMap
      ∧ EngineCall.registerBuiltinTypes false ∈ setupTrace wsNoMap
      ∧ setupTrace wsNoMap = setupPre wsNoMap
          ++ [EngineCall.freeze true, EngineCall.freeze false]) :=
  ⟨(claim_C5_thm wsNull).1 rfl,
   (claim_C5_thm wsNoMap).2 (by decide) rfl⟩

/-- C7: setup freezes both global type environments as its final two actions
(nothing before them is a freeze, so every global mutation of setup precedes
the freezes), and none of the later operations — diagnostics, completion,
hover, signature help, definition lookup — performs a global type environment
mutation. -/
theorem claim_C7_thm (ws : WorkspaceFolder) (uri : Uri) :
    setupTrace ws = setupPre ws ++ [EngineCall.freeze true, EngineCall.freeze false]
    ∧ (∀ c ∈ setupPre ws, isFreeze c = false)
    ∧ (∀ c ∈ documentDiagnosticsCalls ws uri, isGlobalEnvMutation c = false)
    ∧ (∀ c ∈ completionCalls ws uri, isGlobalEnvMutation c = false)
    ∧ (∀ c ∈ hoverCalls ws uri, isGlobalEnvMutation c = false)
    ∧ (∀ c ∈ signatureHelpCalls ws uri, isGlobalEnvMutation c = false)
    ∧ (∀ c ∈ gotoDefinitionCalls ws uri, isGlobalEnvMutation c = false) := by
  refine ⟨rfl, setupPre_noFreeze ws, ?_, ?_, ?_, ?_, ?_⟩
  · by_cases hd : ws.dirty (getModuleName uri) <;>
      by_cases hs : ws.sourceModule (getModuleName uri) <;>
      simp [documentDiagnosticsCalls, hd, hs, isGlobalEnvMutation]
  · simp [completionCalls, isGlobalEnvMutation]
  · by_cases hs : ws.sourceModule (getModuleName uri) <;>
      simp [hoverCalls, hs, isGlobalEnvMutation]
  · by_cases hs : ws.sourceModule (getModuleName uri) <;>
      simp [signatureHelpCalls, hs, isGlobalEnvMutation]
  · by_cases hd : ws.dirty (getModuleName uri) <;>
      simp [gotoDefinitionCalls, hd, isGlobalEnvMutation]

/-- Witness for C7 at concrete state and calls. -/
theorem claim_C7_witness :
    isFreeze (EngineCall.registerBuiltinTypes true) = false
    ∧ isGlobalEnvMutation (EngineCall.isDirty (getModuleName uriA)) = false
    ∧ isGlobalEnvMutation (EngineCall.autocomplete (getModuleName uriA)) = false
    ∧ isGlobalEnvMutation (EngineCall.check (getModuleName uriA)) = false :=
  ⟨(claim_C7_thm wsNoMap uriA).2.1 (EngineCall.registerBuiltinTypes true) (by decide),
   (claim_C7_thm wsNoMap uriA).2.2.1 (EngineCall.isDirty (getModuleName uriA)) (by decide),
   (claim_C7_thm wsNoMap uriA).2.2.2.1 (EngineCall.autocomplete (getModuleName uriA)) (by decide),
   (claim_C7_thm wsNoMap uriA).2.2.2.2.1 (EngineCall.check (getModuleName uriA)) (by decide)⟩
